import Mathlib

/-!
Verification of the `Incidents` resource client
(`src/data/resources/incidents.ts`).

The source is a stateless facade over an injected HTTP transport that
exposes one capability, `get(path, options) -> Promise<Response>`.  Each
method of the class either throws synchronously (when a required
identifier is JavaScript-falsy) or performs exactly one transport call
and returns its promise unchanged.  We embed each method as a value of
`OpResult`, recording either the thrown message or the single transport
invocation (path and options object), and give it a run semantics over
an abstract transport to reason about result and error propagation.
-/

/-- JavaScript truthiness of an optional string argument: `!x` is true
exactly when the argument is absent (`undefined`) or the empty string. -/
def jsFalsyString : Option String → Bool
  | none => true
  | some s => s == ""

/-- JavaScript template-literal conversion of an optional string:
`undefined` interpolates as the text "undefined". -/
def jsStringOfOption : Option String → String
  | none => "undefined"
  | some s => s

/-- Options object passed to the transport: `{ params }` in the source.
The `params` field mirrors the optional query-params argument and may be
`undefined` (modelled as `none`). -/
structure GetOptions (π : Type) where
  params : Option π
deriving DecidableEq

/-- Outcome of invoking one method of the `Incidents` class: either a
synchronous `throw new Error(msg)` before any network activity, or a
single delegation `this.http.get(path, options?)` whose result is
returned unmodified. -/
inductive OpResult (π : Type) where
  | jsThrow (msg : String)
  | httpGet (path : String) (options : Option (GetOptions π))
deriving DecidableEq

/-- List of transport invocations performed by a method call. -/
def OpResult.transportCalls {π : Type} : OpResult π → List (String × Option (GetOptions π))
  | .jsThrow _ => []
  | .httpGet p o => [(p, o)]

/-- Base incidents path for the Mux API (`PATH` in the source). -/
def PATH : String := "/data/v1/incidents"

/-- Embedding of `Incidents.list(params?)`:
`return this.http.get(PATH, { params });`. -/
def Incidents.list {π : Type} (params : Option π) : OpResult π :=
  OpResult.httpGet PATH (some ⟨params⟩)

/-- Embedding of `Incidents.get(incidentId)`: throws when the identifier
is falsy, otherwise delegates to the transport with the interpolated
path and no options argument. -/
def Incidents.get {π : Type} (incidentId : Option String) : OpResult π :=
  if jsFalsyString incidentId then
    OpResult.jsThrow "An incident id is required for incident details."
  else
    OpResult.httpGet (PATH ++ "/" ++ jsStringOfOption incidentId) none

/-- Embedding of `Incidents.related(incidentId, params?)`: throws when
the identifier is falsy, otherwise delegates with the interpolated path
and the options object `{ params }`. -/
def Incidents.related {π : Type} (incidentId : Option String) (params : Option π) : OpResult π :=
  if jsFalsyString incidentId then
    OpResult.jsThrow "An incident id is required for related incidents."
  else
    OpResult.httpGet (PATH ++ "/" ++ jsStringOfOption incidentId ++ "/related") (some ⟨params⟩)

/-- Error observed by a caller of the resource layer: either the
synchronous argument-validation throw, or a failure surfaced by the
transport, carrying the transport error value untouched. -/
inductive RunError (ε : Type) where
  | invalidArgument (msg : String)
  | transportFailure (e : ε)
deriving DecidableEq

/-- Run semantics of a method call against a transport `t`: a thrown
message becomes an `invalidArgument` error; a delegated call returns
exactly what the transport returns, with a transport error propagated
unchanged as `transportFailure`. -/
def OpResult.run {π ε ρ : Type} (t : String → Option (GetOptions π) → Except ε ρ) :
    OpResult π → Except (RunError ε) ρ
  | .jsThrow m => Except.error (RunError.invalidArgument m)
  | .httpGet p o =>
    match t p o with
    | Except.ok x => Except.ok x
    | Except.error e => Except.error (RunError.transportFailure e)

/-- The `Base` class state inherited by `Incidents`: a single field
holding the injected transport reference. -/
structure Base (τ : Type) where
  http : τ
deriving DecidableEq

/-- A request to one of the three exposed operations. -/
inductive Request (π : Type) where
  | list (params : Option π)
  | get (incidentId : Option String)
  | related (incidentId : Option String) (params : Option π)
deriving DecidableEq

/-- Executing one request against an `Incidents` instance: the method
result together with the (unchanged) instance state. -/
def Incidents.exec {π τ : Type} (s : Base τ) : Request π → OpResult π × Base τ
  | .list p => (Incidents.list p, s)
  | .get i => (Incidents.get i, s)
  | .related i p => (Incidents.related i p, s)

/-- Executing a sequence of requests, threading the instance state. -/
def Incidents.execAll {π τ : Type} (s : Base τ) : List (Request π) → Base τ
  | [] => s
  | r :: rs => Incidents.execAll (Incidents.exec s r).2 rs

/-- Boolean substring test on lists, by checking every offset. -/
def listHasSub {α : Type} [DecidableEq α] (needle hay : List α) : Bool :=
  (List.range (hay.length + 1)).any fun i => (hay.drop i).take needle.length == needle

/-- Boolean substring test on strings. -/
def containsSubstr (needle hay : String) : Bool :=
  listHasSub needle.data hay.data

lemma jsFalsyString_some_of_ne {s : String} (h : s ≠ "") :
    jsFalsyString (some s) = false := by
  simp [jsFalsyString, h]

lemma Incidents.get_nonempty {π : Type} (s : String) (h : s ≠ "") :
    (Incidents.get (some s) : OpResult π) =
      OpResult.httpGet ("/data/v1/incidents/" ++ s) none := by
  simp only [Incidents.get, jsFalsyString_some_of_ne h, Bool.false_eq_true, if_false]
  rfl

lemma Incidents.related_nonempty {π : Type} (s : String) (h : s ≠ "") (p : Option π) :
    (Incidents.related (some s) p : OpResult π) =
      OpResult.httpGet ("/data/v1/incidents/" ++ s ++ "/related") (some ⟨p⟩) := by
  simp only [Incidents.related, jsFalsyString_some_of_ne h, Bool.false_eq_true, if_false]
  rfl

lemma Incidents.get_falsy {π : Type} {id : Option String} (h : jsFalsyString id = true) :
    (Incidents.get id : OpResult π) =
      OpResult.jsThrow "An incident id is required for incident details." := by
  simp [Incidents.get, h]

lemma Incidents.related_falsy {π : Type} {id : Option String} (h : jsFalsyString id = true)
    (p : Option π) :
    (Incidents.related id p : OpResult π) =
      OpResult.jsThrow "An incident id is required for related incidents." := by
  simp [Incidents.related, h]

/-- Claim C1: for every empty or missing incidentId, both get and
related fail synchronously with an invalid-argument error, regardless
of the transport, and never invoke the transport, so the list of
transport calls is empty. -/
theorem incidents_falsy_id_throws_without_transport
    {π ε ρ : Type} (id : Option String) (p : Option π)
    (h : jsFalsyString id = true)
    (t : String → Option (GetOptions π) → Except ε ρ) :
    (Incidents.get id : OpResult π).transportCalls = [] ∧
    (Incidents.related id p : OpResult π).transportCalls = [] ∧
    (Incidents.get id : OpResult π).run t =
      Except.error (RunError.invalidArgument
        "An incident id is required for incident details.") ∧
    (Incidents.related id p : OpResult π).run t =
      Except.error (RunError.invalidArgument
        "An incident id is required for related incidents.") := by
  rw [Incidents.get_falsy h, Incidents.related_falsy h p]
  exact ⟨rfl, rfl, rfl, rfl⟩

/-- Witness for C1 at the two concrete falsy identifiers: the missing
identifier (`none`, JavaScript undefined) and the empty string. -/
theorem incidents_falsy_id_throws_without_transport_witness :
    ((Incidents.get none : OpResult Nat).transportCalls = [] ∧
    (Incidents.related none (some 1) : OpResult Nat).transportCalls = [] ∧
    (Incidents.get none : OpResult Nat).run (fun _ _ => (Except.ok 0 : Except String Nat)) =
      Except.error (RunError.invalidArgument
        "An incident id is required for incident details.") ∧
    (Incidents.related none (some 1) : OpResult Nat).run
        (fun _ _ => (Except.ok 0 : Except String Nat)) =
      Except.error (RunError.invalidArgument
        "An incident id is required for related incidents.")) ∧
    ((Incidents.get (some "") : OpResult Nat).transportCalls = [] ∧
    (Incidents.related (some "") none : OpResult Nat).transportCalls = [] ∧
    (Incidents.get (some "") : OpResult Nat).run
        (fun _ _ => (Except.ok 0 : Except String Nat)) =
      Except.error (RunError.invalidArgument
        "An incident id is required for incident details.") ∧
    (Incidents.related (some "") none : OpResult Nat).run
        (fun _ _ => (Except.ok 0 : Except String Nat)) =
      Except.error (RunError.invalidArgument
        "An incident id is required for related incidents.")) :=
  ⟨incidents_falsy_id_throws_without_transport none (some 1) (by rfl) _,
   incidents_falsy_id_throws_without_transport (some "") none (by rfl) _⟩

/-- Claim C2: for every non-empty incidentId, get issues exactly one
transport call, to the path `/data/v1/incidents/` followed by the id,
with no options argument and hence no query parameters. -/
theorem incidents_get_single_call
    {π : Type} (s : String) (h : s ≠ "") :
    (Incidents.get (some s) : OpResult π).transportCalls =
      [("/data/v1/incidents/" ++ s, none)] := by
  rw [Incidents.get_nonempty s h]
  rfl

/-- Witness for C2 at the concrete identifier ABCD1234. -/
theorem incidents_get_single_call_witness :
    (Incidents.get (some "ABCD1234") : OpResult Nat).transportCalls =
      [("/data/v1/incidents/ABCD1234", none)] := by
  have h := incidents_get_single_call (π := Nat) "ABCD1234" (by decide)
  simpa using h

/-- Claim C3: for every non-empty incidentId and every params object,
related issues exactly one transport call, to the path
`/data/v1/incidents/` followed by the id and `/related`, carrying that
params object unchanged inside the options object. -/
theorem incidents_related_single_call
    {π : Type} (s : String) (h : s ≠ "") (p : Option π) :
    (Incidents.related (some s) p : OpResult π).transportCalls =
      [("/data/v1/incidents/" ++ s ++ "/related", some ⟨p⟩)] := by
  rw [Incidents.related_nonempty s h p]
  rfl

/-- Witness for C3 at the scenario from the spec: the identifier
ABCD1234 with the params object for a median measurement. -/
theorem incidents_related_single_call_witness :
    (Incidents.related (some "ABCD1234") (some "measurement=median")
        : OpResult String).transportCalls =
      [("/data/v1/incidents/ABCD1234/related", some ⟨some "measurement=median"⟩)] := by
  have h := incidents_related_single_call "ABCD1234" (by decide)
    (some "measurement=median")
  simpa using h

/-- Claim C4: for every params argument, including the absent one, list
performs no validation (it never throws) and issues one transport call
to `/data/v1/incidents` with the params object passed through
unmodified inside the options object; with no argument the options
object carries an undefined params field. -/
theorem incidents_list_passthrough {π : Type} (p : Option π) :
    (Incidents.list p : OpResult π) =
      OpResult.httpGet "/data/v1/incidents" (some ⟨p⟩) ∧
    (Incidents.list p : OpResult π).transportCalls =
      [("/data/v1/incidents", some ⟨p⟩)] ∧
    (Incidents.list (none : Option π) : OpResult π) =
      OpResult.httpGet "/data/v1/incidents" (some ⟨none⟩) :=
  ⟨rfl, rfl, rfl⟩

/-- Claim C5: every operation returns the transport result unmodified.
If the transport resolves to a value on the call the operation makes,
the operation resolves to exactly that value. -/
theorem incidents_result_unmodified
    {π ε ρ : Type} (t : String → Option (GetOptions π) → Except ε ρ)
    (s : String) (h : s ≠ "") (p q : Option π) (x y z : ρ)
    (hl : t "/data/v1/incidents" (some ⟨p⟩) = Except.ok x)
    (hg : t ("/data/v1/incidents/" ++ s) none = Except.ok y)
    (hr : t ("/data/v1/incidents/" ++ s ++ "/related") (some ⟨q⟩) = Except.ok z) :
    (Incidents.list p : OpResult π).run t = Except.ok x ∧
    (Incidents.get (some s) : OpResult π).run t = Except.ok y ∧
    (Incidents.related (some s) q : OpResult π).run t = Except.ok z := by
  rw [Incidents.get_nonempty s h, Incidents.related_nonempty s h q]
  refine ⟨?_, ?_, ?_⟩ <;> simp [Incidents.list, OpResult.run, PATH, hl, hg, hr]

/-- Witness for C5 with a concrete stub transport that distinguishes
the three calls by echoing the requested path as its value. -/
theorem incidents_result_unmodified_witness :
    (Incidents.list (some 5) : OpResult Nat).run
        (fun path _ => (Except.ok path : Except String String)) =
      Except.ok "/data/v1/incidents" ∧
    (Incidents.get (some "ABCD1234") : OpResult Nat).run
        (fun path _ => (Except.ok path : Except String String)) =
      Except.ok "/data/v1/incidents/ABCD1234" ∧
    (Incidents.related (some "ABCD1234") (some 5) : OpResult Nat).run
        (fun path _ => (Except.ok path : Except String String)) =
      Except.ok "/data/v1/incidents/ABCD1234/related" :=
  incidents_result_unmodified
    (fun path _ => (Except.ok path : Except String String))
    "ABCD1234" (by decide) (some 5) (some 5)
    "/data/v1/incidents" "/data/v1/incidents/ABCD1234"
    "/data/v1/incidents/ABCD1234/related" (by rfl) (by rfl) (by rfl)

/-- Claim C6: for every error the transport raises, each operation
propagates that exact error value to the caller as a transport failure,
never an ok result and never a different error value. -/
theorem incidents_error_propagated
    {π ε ρ : Type} (t : String → Option (GetOptions π) → Except ε ρ)
    (s : String) (h : s ≠ "") (p q : Option π) (e₁ e₂ e₃ : ε)
    (hl : t "/data/v1/incidents" (some ⟨p⟩) = Except.error e₁)
    (hg : t ("/data/v1/incidents/" ++ s) none = Except.error e₂)
    (hr : t ("/data/v1/incidents/" ++ s ++ "/related") (some ⟨q⟩) = Except.error e₃) :
    (Incidents.list p : OpResult π).run t =
      Except.error (RunError.transportFailure e₁) ∧
    (Incidents.get (some s) : OpResult π).run t =
      Except.error (RunError.transportFailure e₂) ∧
    (Incidents.related (some s) q : OpResult π).run t =
      Except.error (RunError.transportFailure e₃) := by
  rw [Incidents.get_nonempty s h, Incidents.related_nonempty s h q]
  refine ⟨?_, ?_, ?_⟩ <;> simp [Incidents.list, OpResult.run, PATH, hl, hg, hr]

/-- Witness for C6 with a concrete stub transport that fails on every
call, echoing the requested path inside the error. -/
theorem incidents_error_propagated_witness :
    (Incidents.list (none : Option Nat) : OpResult Nat).run
        (fun path _ => (Except.error ("boom " ++ path) : Except String Nat)) =
      Except.error (RunError.transportFailure "boom /data/v1/incidents") ∧
    (Incidents.get (some "X") : OpResult Nat).run
        (fun path _ => (Except.error ("boom " ++ path) : Except String Nat)) =
      Except.error (RunError.transportFailure "boom /data/v1/incidents/X") ∧
    (Incidents.related (some "X") (none : Option Nat) : OpResult Nat).run
        (fun path _ => (Except.error ("boom " ++ path) : Except String Nat)) =
      Except.error (RunError.transportFailure "boom /data/v1/incidents/X/related") :=
  incidents_error_propagated
    (fun path _ => (Except.error ("boom " ++ path) : Except String Nat))
    "X" (by decide) none none
    "boom /data/v1/incidents" "boom /data/v1/incidents/X"
    "boom /data/v1/incidents/X/related" (by rfl) (by rfl) (by rfl)

/-- Claim C7: whenever get or related throws for a falsy identifier,
the thrown message names the invalid argument (the incident id) and the
operation (incident details for get, related incidents for related),
and the two messages are distinct. -/
theorem incidents_error_messages_identify
    {π : Type} (id : Option String) (p : Option π)
    (h : jsFalsyString id = true) :
    (Incidents.get id : OpResult π) =
      OpResult.jsThrow "An incident id is required for incident details." ∧
    (Incidents.related id p : OpResult π) =
      OpResult.jsThrow "An incident id is required for related incidents." ∧
    containsSubstr "incident id"
      "An incident id is required for incident details." = true ∧
    containsSubstr "incident details"
      "An incident id is required for incident details." = true ∧
    containsSubstr "incident id"
      "An incident id is required for related incidents." = true ∧
    containsSubstr "related incidents"
      "An incident id is required for related incidents." = true ∧
    ("An incident id is required for incident details." : String) ≠
      "An incident id is required for related incidents." := by
  refine ⟨Incidents.get_falsy h, Incidents.related_falsy h p, ?_, ?_, ?_, ?_, ?_⟩ <;> decide

/-- Witness for C7 at the empty identifier. -/
theorem incidents_error_messages_identify_witness :
    (Incidents.get (some "") : OpResult Nat) =
      OpResult.jsThrow "An incident id is required for incident details." ∧
    (Incidents.related (some "") (some 3) : OpResult Nat) =
      OpResult.jsThrow "An incident id is required for related incidents." ∧
    containsSubstr "incident id"
      "An incident id is required for incident details." = true ∧
    containsSubstr "incident details"
      "An incident id is required for incident details." = true ∧
    containsSubstr "incident id"
      "An incident id is required for related incidents." = true ∧
    containsSubstr "related incidents"
      "An incident id is required for related incidents." = true ∧
    ("An incident id is required for incident details." : String) ≠
      "An incident id is required for related incidents." :=
  incidents_error_messages_identify (some "") (some 3) (by rfl)

/-- Claim C8: identifier validation checks only emptiness. Every
non-empty string, including ones with path separators, is accepted by
get and related and interpolated verbatim into the request path. -/
theorem incidents_validation_only_emptiness
    {π : Type} (s : String) (h : s ≠ "") (p : Option π) :
    (Incidents.get (some s) : OpResult π) =
      OpResult.httpGet ("/data/v1/incidents/" ++ s) none ∧
    (Incidents.related (some s) p : OpResult π) =
      OpResult.httpGet ("/data/v1/incidents/" ++ s ++ "/related") (some ⟨p⟩) :=
  ⟨Incidents.get_nonempty s h, Incidents.related_nonempty s h p⟩

/-- Witness for C8 at a malformed identifier containing path
separators, accepted and spliced verbatim into the path. -/
theorem incidents_validation_only_emptiness_witness :
    (Incidents.get (some "a/b/../c") : OpResult Nat) =
      OpResult.httpGet "/data/v1/incidents/a/b/../c" none ∧
    (Incidents.related (some "a/b/../c") (some 0) : OpResult Nat) =
      OpResult.httpGet "/data/v1/incidents/a/b/../c/related" (some ⟨some 0⟩) :=
  incidents_validation_only_emptiness "a/b/../c" (by decide) (some 0)

/-- Claim C9: the component is stateless. Each operation returns the
instance state unchanged, so executing any sequence of prior requests
leaves the state equal to the initial one, and a request issued after
any history produces exactly the invocation it produces initially. -/
theorem incidents_stateless
    {π τ : Type} (s : Base τ) (prior : List (Request π)) (r : Request π) :
    (Incidents.exec s r).2 = s ∧
    Incidents.execAll s prior = s ∧
    Incidents.exec (Incidents.execAll s prior) r = Incidents.exec s r := by
  have hsnd : ∀ (st : Base τ) (q : Request π), (Incidents.exec st q).2 = st := by
    intro st q
    cases q <;> rfl
  have hall : ∀ (l : List (Request π)), Incidents.execAll s l = s := by
    intro l
    induction l with
    | nil => rfl
    | cons q qs ih =>
      simp only [Incidents.execAll, hsnd]
      exact ih
  exact ⟨hsnd s r, hall prior, by rw [hall prior]⟩

/-- Claim C10: get invokes the transport with no options argument at
all, while list and related always pass an options object, even when
the caller omits params, in which case the params field inside the
options object is undefined. -/
theorem incidents_options_argument_shape
    {π : Type} (s : String) (h : s ≠ "") (p : Option π) :
    (Incidents.get (some s) : OpResult π) =
      OpResult.httpGet ("/data/v1/incidents/" ++ s) none ∧
    (Incidents.list p : OpResult π) =
      OpResult.httpGet "/data/v1/incidents" (some ⟨p⟩) ∧
    (Incidents.related (some s) p : OpResult π) =
      OpResult.httpGet ("/data/v1/incidents/" ++ s ++ "/related") (some ⟨p⟩) ∧
    (Incidents.related (some s) (none : Option π) : OpResult π) =
      OpResult.httpGet ("/data/v1/incidents/" ++ s ++ "/related") (some ⟨none⟩) :=
  ⟨Incidents.get_nonempty s h, rfl, Incidents.related_nonempty s h p,
   Incidents.related_nonempty s h none⟩

/-- Witness for C10 at a concrete identifier and params value. -/
theorem incidents_options_argument_shape_witness :
    (Incidents.get (some "ABCD1234") : OpResult Nat) =
      OpResult.httpGet "/data/v1/incidents/ABCD1234" none ∧
    (Incidents.list (some 7) : OpResult Nat) =
      OpResult.httpGet "/data/v1/incidents" (some ⟨some 7⟩) ∧
    (Incidents.related (some "ABCD1234") (some 7) : OpResult Nat) =
      OpResult.httpGet "/data/v1/incidents/ABCD1234/related" (some ⟨some 7⟩) ∧
    (Incidents.related (some "ABCD1234") (none : Option Nat) : OpResult Nat) =
      OpResult.httpGet "/data/v1/incidents/ABCD1234/related" (some ⟨none⟩) :=
  incidents_options_argument_shape "ABCD1234" (by decide) (some 7)
